import Mathlib

/-!
Shallow embedding of the dataset acquisition-and-caching layer of the
`tubes-pds` repository (`src/data/dataset.py` and `src/data/__init__.py`),
together with theorems settling the frozen claims about it.

The embedding models:
* the three-tier cache chain `Dataset.get` (local snapshot → shared
  HuggingFace store → origin fetch) as a function on an explicit cache
  state, parameterised by an environment describing the outcome of each
  effect, and returning the result together with the list of remote
  contacts it performed;
* the category-tree flattener `flatten_subcategories`;
* the paginated fetchers (`fetch_books_for_category`, `fetch_all`),
  with `asyncio.gather`'s completion order made explicit;
* the per-book description enrichment with its local exception handler;
* the pandas `rename`/`astype` post-processing with its
  `valid_dtypes` column filter;
* the broken prologue of `BooksDataset._fetch_dataset`
  (`BookCategoriesDataset(self.repo_id)`), following Python attribute
  lookup and call-arity semantics.
-/

namespace Gramedia

/-! ## Tiered cache store (`Dataset.get`, dataset.py lines 111-139) -/

/-- The persistent state a `Dataset` object sees: the local parquet
snapshot (under the temp directory) and the shared HuggingFace artifact,
each either present with some table contents or absent. -/
structure CacheState (α : Type) where
  localFile : Option α
  hfFile : Option α
deriving Repr

/-- Remote contacts performed during one `get()` call.  Loading or saving
the local snapshot is a filesystem operation, not a remote contact, and is
tracked through `CacheState.localFile` instead. -/
inductive Event where
  | hfCheck      -- `_check_exists_on_hf`: the existence probe against the shared store
  | hfDownload   -- `_download_from_hf`
  | originFetch  -- `_fetch_dataset`: the origin API fetch
  | hfUpload     -- `_upload_to_hf`
deriving DecidableEq, Repr

/-- Outcome of each effectful step during one `get()` call.
`hfNetOk = false` models `hf_hub_download` raising inside
`_check_exists_on_hf` (network failure, auth failure, …); a missing
artifact is `hfFile = none`.  `fetchResult` is the outcome of the
dataset's `_fetch_dataset`; `uploadOk = false` models `_upload_to_hf`
raising. -/
structure CacheEnv (α : Type) where
  hfNetOk : Bool
  downloadOk : Bool
  fetchResult : Except String α
  uploadOk : Bool

/-- Model of `Dataset._check_exists_on_hf` (lines 57-68): tries
`hf_hub_download`; returns `True` on success and `False` on ANY
exception.  It succeeds exactly when the network/auth side works and the
artifact exists. -/
def checkExistsOnHf (hfFile : Option α) (netOk : Bool) : Bool :=
  netOk && hfFile.isSome

/-- Model of `Dataset._download_from_hf` (lines 70-82): downloads and reads the
artifact; on exception it logs and re-raises. -/
def downloadFromHf (hfFile : Option α) (ok : Bool) : Except String α :=
  if ok then
    match hfFile with
    | some df => .ok df
    | none => .error "EntryNotFoundError"
  else .error "download failed"

/-- Model of `Dataset._upload_to_hf` (lines 84-109): creates the repo and uploads
the local snapshot; on exception it logs and RE-RAISES (`raise` in the
`except` block).  The lazy `hf_hub.login` bookkeeping does not affect the
outcome modelled here. -/
def uploadToHf (ok : Bool) : Except String Unit :=
  if ok then .ok () else .error "upload failed"

/-- Model of `Dataset.get` (lines 111-139), priority local → HuggingFace → API:

```python
df = self._load_local()
if df is not None: return df
if self._check_exists_on_hf():
    df = self._download_from_hf()
    self._save_local(df)
    return df
df = await self._fetch_dataset()
self._save_local(df)
self._upload_to_hf()
return df
```

Returns the Python-level outcome (a table, or the propagated exception),
the cache state after the call, and the remote contacts in order. -/
def datasetGet (st : CacheState α) (env : CacheEnv α) :
    Except String α × CacheState α × List Event :=
  match st.localFile with
  | some df => (.ok df, st, [])
  | none =>
    if checkExistsOnHf st.hfFile env.hfNetOk then
      match downloadFromHf st.hfFile env.downloadOk with
      | .ok df => (.ok df, { st with localFile := some df }, [.hfCheck, .hfDownload])
      | .error e => (.error e, st, [.hfCheck, .hfDownload])
    else
      match env.fetchResult with
      | .error e => (.error e, st, [.hfCheck, .originFetch])
      | .ok df =>
        match uploadToHf env.uploadOk with
        | .ok _ =>
          (.ok df, { localFile := some df, hfFile := some df },
            [.hfCheck, .originFetch, .hfUpload])
        | .error e =>
          (.error e, { st with localFile := some df },
            [.hfCheck, .originFetch, .hfUpload])

/-! ## Category tree flattener (`flatten_subcategories`, dataset.py lines 153-174) -/

/-- One node of the nested category tree returned by the subcategory
endpoint: `title`, `slug`, `image`, and the `subcategory` list of child
nodes (missing/empty/None keys all behave as "no children", i.e. the
empty list, because `category.get("subcategory")` is falsy then). -/
inductive Category where
  | node (title slug image : String) (subcategory : List Category)

def Category.title : Category → String
  | .node t _ _ _ => t

def Category.slug : Category → String
  | .node _ s _ _ => s

def Category.image : Category → String
  | .node _ _ i _ => i

def Category.subcategory : Category → List Category
  | .node _ _ _ subs => subs

/-- One flattened category record (dataset.py lines 156-162). -/
structure CategoryRecord where
  title : String
  slug : String
  image : String
  parent_slug : Option String
  depth : Nat
deriving DecidableEq, Repr

mutual

/-- Model of `flatten_subcategories(category, parent_slug=None, depth=0)`
(lines 153-170): emit the current node's record, then the flattenings of
its children with `parent_slug=category["slug"]` and `depth=depth+1`. -/
def flatten_subcategories (c : Category) (parent_slug : Option String) (depth : Nat) :
    List CategoryRecord :=
  match c with
  | .node t s i subs =>
    { title := t, slug := s, image := i, parent_slug := parent_slug, depth := depth }
      :: flattenChildren subs s (depth + 1)

/-- Model of the `for subcat in category["subcategory"]: flattened.extend(...)`
loop of lines 165-168. -/
def flattenChildren (subs : List Category) (parentSlug : String) (depth : Nat) :
    List CategoryRecord :=
  match subs with
  | [] => []
  | c :: cs =>
    flatten_subcategories c (some parentSlug) depth ++ flattenChildren cs parentSlug depth

end

mutual

/-- Number of nodes of a category tree. -/
def Category.size : Category → Nat
  | .node _ _ _ subs => 1 + sizeList subs

def sizeList : List Category → Nat
  | [] => 0
  | c :: cs => c.size + sizeList cs

end

/-! ## `asyncio.gather` and the paginated fetchers

`asyncio.gather(*tasks)` returns one result per task, **in task-submission
order**, however the tasks interleave at runtime.  We make the runtime
completion order an explicit parameter: `order` lists the task indices in
the order the tasks finish, and each finishing task deposits its result in
the slot at its own index; `gather` then reads the slots out in index
(i.e. submission) order. -/

/-- One task (the one at index `i`) completes and deposits its result in
its own slot. -/
def gatherStep (tasks : List α) (slots : List (Option α)) (i : Nat) :
    List (Option α) :=
  match tasks[i]? with
  | some t => slots.set i (some t)
  | none => slots

/-- Run the schedule: tasks complete in the order given by `order`
(indices into `tasks`), each storing its result at its own index. -/
def gatherRun (tasks : List α) (order : List Nat) : List (Option α) :=
  order.foldl (gatherStep tasks) (List.replicate tasks.length none)

/-- Model of `asyncio.gather(*tasks)` under completion order `order`: the slots
read out in task-submission order. -/
def gather (tasks : List α) (order : List Nat) : List α :=
  (gatherRun tasks order).filterMap id

/-- The shared paginated-fetch shape (dataset.py lines 212-231 for books
pages, lines 297-316 for stores; identically in `__init__.py`):

```python
response = await http.get(...page=1...)
total_pages = data["meta"]["total_page"]
books = list(data["data"])
if total_pages > 1:
    tasks = [http.get(...page=page...) for page in range(2, total_pages + 1)]
    responses = await asyncio.gather(*tasks)
    for resp in responses:
        books.extend(resp.json()["data"])
```

`pages n` is the record list the origin returns for page `n`; `order` is
the completion order of the page-2..N tasks. -/
def paginatedFetch (pages : Nat → List α) (total_pages : Nat) (order : List Nat) :
    List α :=
  let records := pages 1
  if total_pages > 1 then
    records ++ (gather ((List.range' 2 (total_pages - 1)).map pages) order).flatten
  else records

/-! ## Books fetch: description enrichment and per-category fetch
(dataset.py lines 196-242) -/

/-- A raw book record as far as the claims need it: the `slug` key is
present in the origin payload; `category_slug` and `description` are the
keys the code adds afterwards (absent, i.e. `none`, in the raw payload). -/
structure Book where
  slug : String
  title : String := ""
  category_slug : Option String := none
  description : Option String := none
deriving DecidableEq, Repr

/-- Model of `fetch_description(slug)` (lines 200-210): requests the product
detail page and extracts the description; on ANY exception it logs and
returns `None`.  `descApi` is the outcome of the request/extraction. -/
def fetch_description (descApi : String → Except String String) (slug : String) :
    Option String :=
  match descApi slug with
  | .ok d => some d
  | .error _ => none

/-- Model of `fetch_books_for_category(category_slug)` (lines 212-242): paginated
fetch of the category's books, then tag each record with
`category_slug`, then fetch all descriptions concurrently (gather keeps
task order) and zip them back onto the records. -/
def fetch_books_for_category (pages : Nat → List Book) (total_pages : Nat)
    (order : List Nat) (descApi : String → Except String String)
    (category_slug : String) : List Book :=
  let books := paginatedFetch pages total_pages order
  let tagged := books.map (fun b => { b with category_slug := some category_slug })
  let descriptions := tagged.map (fun b => fetch_description descApi b.slug)
  (tagged.zip descriptions).map (fun bd => { bd.1 with description := bd.2 })

/-- Model of `fetch_all(is_online)` inside `StoreLocationsDataset._fetch_dataset`
(lines 297-316): the same paginated shape, keyed by the online/offline
flag.  `α` stands for the store record payload. -/
def storesFetchAll (storesApi : Bool → Nat → List α) (is_online : Bool)
    (total_pages : Nat) (order : List Nat) : List α :=
  paginatedFetch (storesApi is_online) total_pages order

/-! ## pandas rename/astype post-processing (dataset.py lines 258-287) -/

/-- A primitive cell value of the raw JSON payload / resulting table. -/
inductive PValue where
  | vInt (n : Int)
  | vStr (s : String)
  | vBool (b : Bool)
  | vNull
deriving DecidableEq, Repr

/-- The dtypes named in the books `dtype_map`. -/
inductive Dtype where
  | dString
  | dInt64
  | dBool
  | dCategory
deriving DecidableEq, Repr

/-- pandas cell conversion as `astype` applies it: numeric/bool/parsable
strings convert to int64 (nulls and unparsable strings raise);
anything truthy/falsy converts to bool (nulls raise); the nullable
`string` dtype renders scalars and keeps NA; `category` keeps the cell. -/
def castValue : Dtype → PValue → Option PValue
  | .dInt64, .vInt n => some (.vInt n)
  | .dInt64, .vBool b => some (.vInt (if b then 1 else 0))
  | .dInt64, .vStr s => (s.toInt?).map .vInt
  | .dInt64, .vNull => none
  | .dBool, .vBool b => some (.vBool b)
  | .dBool, .vInt n => some (.vBool (n != 0))
  | .dBool, .vStr s => some (.vBool (s != ""))
  | .dBool, .vNull => none
  | .dString, .vStr s => some (.vStr s)
  | .dString, .vInt n => some (.vStr (toString n))
  | .dString, .vBool b => some (.vStr (if b then "True" else "False"))
  | .dString, .vNull => some .vNull
  | .dCategory, v => some v

/-- A named, typed column. -/
structure Column where
  name : String
  dtype : Dtype
  values : List PValue
deriving DecidableEq, Repr

/-- A table is its list of columns. -/
abbrev DataFrame := List Column

def hasColumn (df : DataFrame) (name : String) : Bool :=
  df.any (fun c => c.name == name)

def columnDtype (df : DataFrame) (name : String) : Option Dtype :=
  (df.find? (fun c => c.name == name)).map Column.dtype

/-- Model of `df.rename(columns={old: fresh})` (line 261). -/
def renameColumn (df : DataFrame) (old fresh : String) : DataFrame :=
  df.map (fun c => if c.name == old then { c with name := fresh } else c)

/-- Cast a column's cells one by one; fails if any cell is
unconvertible. -/
def castCells (dt : Dtype) : List PValue → Option (List PValue)
  | [] => some []
  | v :: vs =>
    match castValue dt v, castCells dt vs with
    | some w, some ws => some (w :: ws)
    | _, _ => none

/-- Cast one column cell-wise; fails if any cell is unconvertible. -/
def castColumn (dt : Dtype) (c : Column) : Option Column :=
  (castCells dt c.values).map (fun vs => { c with dtype := dt, values := vs })

/-- Convert each column named by the mapping, left to right; raise if
any cell conversion fails; columns not named pass through unchanged. -/
def castColumns (m : List (String × Dtype)) : DataFrame → Option DataFrame
  | [] => some []
  | c :: cs =>
    match (match m.lookup c.name with
           | some dt => castColumn dt c
           | none => some c),
          castColumns m cs with
    | some x, some xs => some (x :: xs)
    | _, _ => none

/-- Model of `df.astype(mapping)`: every key of the mapping must name an existing
column (pandas raises `KeyError` otherwise); each named column is cast
cell-wise (raising if some cell is unconvertible); columns not named
pass through unchanged. -/
def astype (df : DataFrame) (m : List (String × Dtype)) : Option DataFrame :=
  if m.all (fun p => hasColumn df p.1) then castColumns m df
  else none

/-- The books `dtype_map` (dataset.py lines 263-283). -/
def booksDtypeMap : List (String × Dtype) :=
  [("id", .dInt64), ("title", .dString), ("description", .dString),
   ("image", .dString), ("slug", .dString), ("author", .dString),
   ("final_price", .dInt64), ("slice_price", .dInt64), ("discount", .dInt64),
   ("is_oos", .dBool), ("sku", .dString), ("category_slug", .dString),
   ("format", .dString), ("applied_promo_slug", .dString),
   ("store_name", .dString), ("isbn", .dString),
   ("warehouse_slug", .dString), ("warehouse_id", .dInt64),
   ("lang", .dCategory)]

/-- Model of `valid_dtypes = {col: dtype for col, dtype in dtype_map.items() if col in df.columns}`
(line 284): the mapping restricted to columns actually present. -/
def valid_dtypes (m : List (String × Dtype)) (df : DataFrame) : List (String × Dtype) :=
  m.filter (fun p => hasColumn df p.1)

/-- The post-processing of `BooksDataset._fetch_dataset` (lines 258-287):
rename `product_meta_id` to `id`, then `astype` over `valid_dtypes`
(`if valid_dtypes:` skips the astype when the restricted mapping is
empty, which is the identity anyway). -/
def booksRetype (df : DataFrame) : Option DataFrame :=
  let renamed := renameColumn df "product_meta_id" "id"
  let valid := valid_dtypes booksDtypeMap renamed
  if valid.isEmpty then some renamed else astype renamed valid

/-! ## The `BooksDataset._fetch_dataset` prologue (dataset.py lines 244-247) -/

/-- A Python-level exception. -/
inductive PyError where
  | attributeError (attr : String)
  | typeError (msg : String)
  | datasetError (e : String)
deriving DecidableEq, Repr

/-- Attribute lookup on a `Dataset` instance.  `Dataset.__init__`
(lines 28-29) stores only `self._filename`; no code path assigns
`repo_id` or any other instance attribute, and no class in the file
defines a `repo_id` class attribute.  Looking up anything else raises
`AttributeError`. -/
def datasetGetAttr (filename : String) (attr : String) : Except PyError String :=
  if attr = "_filename" then .ok filename else .error (.attributeError attr)

/-- Calling `BookCategoriesDataset(...)`: its `__init__(self)`
(lines 145-146) accepts no positional arguments beyond `self`, so any
extra argument raises `TypeError` before the body runs; with no
arguments it sets `_filename = "book_categories.parquet"`. -/
def bookCategoriesInit (args : List String) : Except PyError String :=
  match args with
  | [] => .ok "book_categories.parquet"
  | _ => .error (.typeError "BookCategoriesDataset.__init__ takes 1 positional argument")

/-- Remote contacts of `BooksDataset._fetch_dataset`. -/
inductive BooksEvent where
  | categories (e : Event)                              -- contact by the categories get()
  | productsRequest (category_slug : String) (page : Nat)
  | descriptionRequest (slug : String)
deriving DecidableEq, Repr

/-- Environment for a `BooksDataset._fetch_dataset` run: the categories
dataset's cache state and effect outcomes, and the products/description
origin oracles per category slug. -/
structure BooksFetchEnv where
  catState : CacheState (List CategoryRecord)
  catEnv : CacheEnv (List CategoryRecord)
  pagesFor : String → Nat → List Book
  totalPagesFor : String → Nat
  orderFor : String → List Nat
  descApi : String → Except String String

/-- Remote contacts of one per-category book fetch: page requests 1..N,
then one description request per record. -/
def booksEventsForCategory (env : BooksFetchEnv) (s : String) : List BooksEvent :=
  ((List.range' 1 (env.totalPagesFor s)).map (BooksEvent.productsRequest s))
    ++ (paginatedFetch (env.pagesFor s) (env.totalPagesFor s) (env.orderFor s)).map
        (fun b => BooksEvent.descriptionRequest b.slug)

/-- Model of `BooksDataset._fetch_dataset` (lines 196-287), down to the record
rows (the final `booksRetype` step is modelled above on `DataFrame`s).
Python evaluates the call `BookCategoriesDataset(self.repo_id)`
(line 245) by first reading `self.repo_id` — raising `AttributeError`,
since `Dataset.__init__` only ever sets `_filename` — and would, were an
argument value available, raise `TypeError` for the extra positional
argument.  Only if both steps succeeded would the categories manager's
`get()` (the tiered chain, line 246) run, followed by the concurrent
per-category book fetches (lines 250-256). -/
def booksFetchDataset (filename : String) (env : BooksFetchEnv) :
    Except PyError (List Book) × List BooksEvent :=
  match datasetGetAttr filename "repo_id" with
  | .error e => (.error e, [])
  | .ok repoId =>
    match bookCategoriesInit [repoId] with
    | .error e => (.error e, [])
    | .ok _ =>
      match datasetGet env.catState env.catEnv with
      | (.error e, _, evs) => (.error (.datasetError e), evs.map .categories)
      | (.ok catDf, _, evs) =>
        let slugs := catDf.map CategoryRecord.slug
        let allBooks := (slugs.map (fun s =>
          fetch_books_for_category (env.pagesFor s) (env.totalPagesFor s)
            (env.orderFor s) env.descApi s)).flatten
        (.ok allBooks,
          evs.map .categories ++ (slugs.map (booksEventsForCategory env)).flatten)

/-! ## Helper lemmas: `asyncio.gather` returns results in task order,
for every completion schedule that completes every task -/

theorem gatherStep_length (tasks : List α) (slots : List (Option α)) (i : Nat) :
    (gatherStep tasks slots i).length = slots.length := by
  unfold gatherStep
  cases tasks[i]? <;> simp

theorem foldl_gatherStep_length (tasks : List α) (order : List Nat)
    (slots : List (Option α)) :
    (order.foldl (gatherStep tasks) slots).length = slots.length := by
  induction order generalizing slots with
  | nil => rfl
  | cons i rest ih =>
    simp only [List.foldl_cons]
    rw [ih, gatherStep_length]

theorem foldl_gatherStep_not_mem (tasks : List α) (order : List Nat)
    (slots : List (Option α)) (j : Nat) (hj : j ∉ order) :
    (order.foldl (gatherStep tasks) slots)[j]? = slots[j]? := by
  induction order generalizing slots with
  | nil => rfl
  | cons i rest ih =>
    simp only [List.foldl_cons]
    have hji : j ≠ i := fun h => hj (h ▸ List.mem_cons_self i rest)
    have hjr : j ∉ rest := fun h => hj (List.mem_cons_of_mem i h)
    rw [ih _ hjr]
    unfold gatherStep
    cases tasks[i]? with
    | none => rfl
    | some t => exact List.getElem?_set_ne (Ne.symm hji)

theorem foldl_gatherStep_mem (tasks : List α) (order : List Nat)
    (slots : List (Option α)) (j : Nat) (hj : j ∈ order) (hjt : j < tasks.length)
    (hlen : slots.length = tasks.length) :
    (order.foldl (gatherStep tasks) slots)[j]? = some tasks[j]? := by
  induction order generalizing slots with
  | nil => exact absurd hj (List.not_mem_nil j)
  | cons i rest ih =>
    simp only [List.foldl_cons]
    by_cases hr : j ∈ rest
    · exact ih (gatherStep tasks slots i) hr ((gatherStep_length tasks slots i).trans hlen)
    · have hji : j = i := by
        rcases List.mem_cons.mp hj with h | h
        · exact h
        · exact absurd h hr
      subst hji
      rw [foldl_gatherStep_not_mem tasks rest _ j hr]
      unfold gatherStep
      have : tasks[j]? = some tasks[j] := List.getElem?_eq_getElem hjt
      rw [this]
      rw [List.getElem?_set_self (by rw [hlen]; exact hjt)]

theorem gatherRun_eq_map_some (tasks : List α) (order : List Nat)
    (h : ∀ i, i < tasks.length → i ∈ order) :
    gatherRun tasks order = tasks.map some := by
  apply List.ext_getElem?
  intro j
  by_cases hj : j < tasks.length
  · rw [gatherRun, foldl_gatherStep_mem tasks order _ j (h j hj) hj
      (List.length_replicate _ _)]
    rw [List.getElem?_map, List.getElem?_eq_getElem hj]
    rfl
  · have h1 : (gatherRun tasks order).length ≤ j := by
      rw [gatherRun, foldl_gatherStep_length, List.length_replicate]
      omega
    have h2 : (tasks.map some).length ≤ j := by
      rw [List.length_map]; omega
    rw [List.getElem?_eq_none h1, List.getElem?_eq_none h2]

/-- Core gather fact: whenever the completion schedule completes every
task (in whatever order, duplicates allowed), `gather` returns exactly
the tasks' results in task-submission order. -/
theorem gather_eq_tasks (tasks : List α) (order : List Nat)
    (h : ∀ i, i < tasks.length → i ∈ order) :
    gather tasks order = tasks := by
  rw [gather, gatherRun_eq_map_some tasks order h, List.filterMap_map]
  simp

/-- The paginated fetch returns page 1's records followed by pages
2..N's records in ascending page order, for every completion schedule of
the fan-out phase that completes every page task. -/
theorem paginatedFetch_eq_flatten (pages : Nat → List α) (total_pages : Nat)
    (order : List Nat) (h1 : 1 ≤ total_pages)
    (h2 : ∀ i, i < total_pages - 1 → i ∈ order) :
    paginatedFetch pages total_pages order
      = ((List.range' 1 total_pages).map pages).flatten := by
  unfold paginatedFetch
  by_cases ht : total_pages > 1
  · rw [if_pos ht]
    have hlen : ((List.range' 2 (total_pages - 1)).map pages).length = total_pages - 1 := by
      rw [List.length_map, List.length_range']
    rw [gather_eq_tasks _ order (by rw [hlen]; exact h2)]
    have : total_pages = (total_pages - 1) + 1 := by omega
    rw [this, List.range'_succ]
    simp
  · have : total_pages = 1 := by omega
    subst this
    simp [List.range']

/-! ## Claim theorems: tiered cache store -/

/-- C1: Tiered cache precedence of `Dataset.get`.  (i) If a local
snapshot exists it is returned as-is with an empty remote-contact trace —
neither the shared store nor the origin is contacted, whatever the other
tiers hold and whatever the environment would do.  (ii) If no local
snapshot exists but the shared one does (and the shared tier's
check/download succeed), the shared table is returned, a local copy is
persisted, and the trace is exactly check-then-download — no origin
fetch.  (iii) If neither exists, the trace contains the origin fetch
exactly once, and afterwards both the local and the shared copies hold
the fetched table.  Presence alone decides each tier; no freshness
re-validation occurs anywhere. -/
theorem C1_tiered_cache_precedence (st : CacheState α) (env : CacheEnv α) :
    (∀ df, st.localFile = some df →
      datasetGet st env = (.ok df, st, [])) ∧
    (∀ df, st.localFile = none → st.hfFile = some df →
      env.hfNetOk = true → env.downloadOk = true →
      datasetGet st env
        = (.ok df, { st with localFile := some df }, [.hfCheck, .hfDownload])) ∧
    (∀ df, st.localFile = none → st.hfFile = none →
      env.fetchResult = .ok df → env.uploadOk = true →
      datasetGet st env
        = (.ok df, { localFile := some df, hfFile := some df },
            [.hfCheck, .originFetch, .hfUpload]) ∧
      ((datasetGet st env).2.2.count .originFetch = 1)) := by
  refine ⟨?_, ?_, ?_⟩
  · intro df hdf
    simp [datasetGet, hdf]
  · intro df hl hh hn hd
    simp [datasetGet, hl, hh, hn, hd, checkExistsOnHf, downloadFromHf]
  · intro df hl hh hf hu
    simp [datasetGet, hl, hh, hf, hu, checkExistsOnHf, uploadToHf, List.count_cons]

/-- Witness for C1 at concrete inputs, one per tier. -/
theorem C1_tiered_cache_precedence_witness :
    datasetGet (α := Nat) ⟨some 1, some 2⟩ ⟨true, true, .ok 3, true⟩
        = (.ok 1, ⟨some 1, some 2⟩, []) ∧
    datasetGet (α := Nat) ⟨none, some 2⟩ ⟨true, true, .ok 3, true⟩
        = (.ok 2, ⟨some 2, some 2⟩, [.hfCheck, .hfDownload]) ∧
    datasetGet (α := Nat) ⟨none, none⟩ ⟨true, true, .ok 3, true⟩
        = (.ok 3, ⟨some 3, some 3⟩, [.hfCheck, .originFetch, .hfUpload]) :=
  ⟨(C1_tiered_cache_precedence ⟨some 1, some 2⟩ ⟨true, true, .ok 3, true⟩).1 1 rfl,
   (C1_tiered_cache_precedence ⟨none, some 2⟩ ⟨true, true, .ok 3, true⟩).2.1 2
      rfl rfl rfl rfl,
   ((C1_tiered_cache_precedence ⟨none, none⟩ ⟨true, true, .ok 3, true⟩).2.2 3
      rfl rfl rfl rfl).1⟩

/-- C2 (status: code bug).  At the failing input — both snapshot tiers
empty, the origin fetch succeeding with table `42`, the shared-store
upload raising — `Dataset.get` does NOT swallow the publish failure and
return the fetched table: `_upload_to_hf` re-raises after logging, `get`
calls it outside any `try`, and the exception propagates to the caller,
discarding the valid in-memory result (only the local snapshot
survives). -/
theorem C2_upload_failure_propagates :
    datasetGet (α := Nat) ⟨none, none⟩ ⟨true, true, .ok 42, false⟩
      = (.error "upload failed", ⟨some 42, none⟩,
         [.hfCheck, .originFetch, .hfUpload]) := by
  rfl

/-- C9: a shared-store existence-check failure (any exception inside
`_check_exists_on_hf`, modelled by `hfNetOk = false`) is a soft miss:
the check returns `false` — it raises nothing — and `get()` falls
through to the origin-fetch tier (the origin fetch is in the trace, the
shared download is not), regardless of whether the shared artifact
actually exists. -/
theorem C9_check_failure_soft_miss (st : CacheState α) (env : CacheEnv α)
    (hl : st.localFile = none) (hn : env.hfNetOk = false) :
    checkExistsOnHf st.hfFile env.hfNetOk = false ∧
    Event.originFetch ∈ (datasetGet st env).2.2 ∧
    Event.hfDownload ∉ (datasetGet st env).2.2 ∧
    (datasetGet st env).1 = (match env.fetchResult, env.uploadOk with
      | .error e, _ => .error e
      | .ok _, false => .error "upload failed"
      | .ok df, true => .ok df) := by
  refine ⟨by simp [checkExistsOnHf, hn], ?_⟩
  rcases henv : env.fetchResult with e | df
  · simp [datasetGet, hl, hn, henv, checkExistsOnHf]
  · by_cases hu : env.uploadOk <;>
      simp [datasetGet, hl, hn, henv, hu, checkExistsOnHf, uploadToHf]

/-- Witness for C9: the shared artifact exists but the check raises;
`get()` still goes to the origin. -/
theorem C9_check_failure_soft_miss_witness :
    checkExistsOnHf (some 7) false = false ∧
    Event.originFetch ∈ (datasetGet (α := Nat) ⟨none, some 7⟩ ⟨false, true, .ok 3, true⟩).2.2 ∧
    Event.hfDownload ∉ (datasetGet (α := Nat) ⟨none, some 7⟩ ⟨false, true, .ok 3, true⟩).2.2 ∧
    (datasetGet (α := Nat) ⟨none, some 7⟩ ⟨false, true, .ok 3, true⟩).1 = .ok 3 :=
  C9_check_failure_soft_miss ⟨none, some 7⟩ ⟨false, true, .ok 3, true⟩ rfl rfl

/-- C10: in the origin-fetch tier, `_save_local` runs before
`_upload_to_hf`.  When the fetch succeeds and the upload then raises,
`get()` fails, but the fetched table is already persisted locally; a
subsequent `get()` in ANY environment returns that table from the local
tier with no remote contact at all. -/
theorem C10_local_snapshot_survives_upload_failure (st : CacheState α)
    (env env' : CacheEnv α) (df : α)
    (hl : st.localFile = none)
    (hn : checkExistsOnHf st.hfFile env.hfNetOk = false)
    (hf : env.fetchResult = .ok df) (hu : env.uploadOk = false) :
    (datasetGet st env).1 = .error "upload failed" ∧
    (datasetGet st env).2.1.localFile = some df ∧
    datasetGet (datasetGet st env).2.1 env'
      = (.ok df, (datasetGet st env).2.1, []) := by
  have hrun : datasetGet st env
      = (.error "upload failed", { st with localFile := some df },
         [.hfCheck, .originFetch, .hfUpload]) := by
    simp [datasetGet, hl, hn, hf, hu, uploadToHf]
  refine ⟨by rw [hrun], by rw [hrun], ?_⟩
  rw [hrun]
  simp [datasetGet]

/-- Witness for C10 at concrete inputs: the first `get` fails on upload
but persists locally; the second `get` serves from the local tier. -/
theorem C10_local_snapshot_survives_upload_failure_witness :
    (datasetGet (α := Nat) ⟨none, none⟩ ⟨true, true, .ok 9, false⟩).1
        = .error "upload failed" ∧
    (datasetGet (α := Nat) ⟨none, none⟩ ⟨true, true, .ok 9, false⟩).2.1.localFile
        = some 9 ∧
    datasetGet (datasetGet (α := Nat) ⟨none, none⟩ ⟨true, true, .ok 9, false⟩).2.1
        ⟨true, true, .error "origin down", true⟩
      = (.ok 9, (datasetGet (α := Nat) ⟨none, none⟩ ⟨true, true, .ok 9, false⟩).2.1, []) :=
  C10_local_snapshot_survives_upload_failure ⟨none, none⟩
    ⟨true, true, .ok 9, false⟩ ⟨true, true, .error "origin down", true⟩ 9 rfl rfl rfl rfl

/-! ## Claim theorems: the books origin fetch prologue -/

/-- C4: the books origin fetch `BooksDataset._fetch_dataset` always raises before issuing any
book request.  For every filename and environment: reading
`self.repo_id` raises `AttributeError` (no `Dataset` instance defines
that attribute), so the whole fetch returns that error with an empty
remote-contact trace; moreover the `BookCategoriesDataset` constructor
rejects any positional argument with `TypeError`, so the call could not
succeed even with the attribute present.  The books origin-fetch tier
can never succeed. -/
theorem C4_books_origin_fetch_always_raises (filename : String)
    (env : BooksFetchEnv) :
    booksFetchDataset filename env = (.error (.attributeError "repo_id"), []) ∧
    datasetGetAttr filename "repo_id" = .error (.attributeError "repo_id") ∧
    (∀ v, bookCategoriesInit [v]
      = .error (.typeError "BookCategoriesDataset.__init__ takes 1 positional argument")) := by
  refine ⟨?_, ?_, fun v => rfl⟩
  · simp [booksFetchDataset, datasetGetAttr]
  · simp [datasetGetAttr]

/-- C3 (status: corrected), counterexample.  In an environment where a
local categories snapshot, a shared categories snapshot, AND a reachable
categories origin all exist, `BooksDataset._fetch_dataset` performs no
categories origin fetch whatsoever (its remote-contact trace is empty:
it raises `AttributeError` on `self.repo_id` first), contradicting the
claim that it obtains the slugs by performing a fresh categories fetch
from the origin. -/
theorem C3_counterexample :
    (booksFetchDataset "books.parquet"
        ⟨⟨some [⟨"Novel", "novel", "", none, 0⟩], some [⟨"Novel", "novel", "", none, 0⟩]⟩,
         ⟨true, true, .ok [⟨"Novel", "novel", "", none, 0⟩], true⟩,
         fun _ _ => [⟨"b1", "B1", none, none⟩], fun _ => 1, fun _ => [],
         fun _ => .ok "d"⟩).2 = [] ∧
    BooksEvent.categories Event.originFetch ∉
      (booksFetchDataset "books.parquet"
        ⟨⟨some [⟨"Novel", "novel", "", none, 0⟩], some [⟨"Novel", "novel", "", none, 0⟩]⟩,
         ⟨true, true, .ok [⟨"Novel", "novel", "", none, 0⟩], true⟩,
         fun _ _ => [⟨"b1", "B1", none, none⟩], fun _ => 1, fun _ => [],
         fun _ => .ok "d"⟩).2 ∧
    (booksFetchDataset "books.parquet"
        ⟨⟨some [⟨"Novel", "novel", "", none, 0⟩], some [⟨"Novel", "novel", "", none, 0⟩]⟩,
         ⟨true, true, .ok [⟨"Novel", "novel", "", none, 0⟩], true⟩,
         fun _ _ => [⟨"b1", "B1", none, none⟩], fun _ => 1, fun _ => [],
         fun _ => .ok "d"⟩).1 = .error (.attributeError "repo_id") := by
  refine ⟨?_, ?_, ?_⟩ <;> simp [booksFetchDataset, datasetGetAttr]

/-- C3 amended: the books origin fetch never performs a fresh categories
origin fetch, and consults no local or shared categories snapshot
either — for every filename and environment it raises (`AttributeError`
on `self.repo_id`) before making any contact, so its remote-contact
trace is empty.  (The call it would have made,
`categories_manager.get()` at line 246, is the tiered cache chain, not a
direct origin fetch.) -/
theorem C3_amended_no_categories_contact (filename : String)
    (env : BooksFetchEnv) :
    (booksFetchDataset filename env).2 = [] ∧
    (booksFetchDataset filename env).1 = .error (.attributeError "repo_id") := by
  constructor
  · simp [booksFetchDataset, datasetGetAttr]
  · simp [booksFetchDataset, datasetGetAttr]

/-! ## Claim theorems: pagination and description enrichment -/

theorem zip_self_map_set_description (l : List Book) (g : Book → Option String) :
    (l.zip (l.map g)).map (fun bd => { bd.1 with description := bd.2 })
      = l.map (fun b => { b with description := g b }) := by
  induction l with
  | nil => rfl
  | cons b bs ih => simp only [List.map_cons, List.zip_cons_cons, ih]

/-- The per-category books fetch is the page-ordered concatenation of
the origin's pages, enriched record-wise in place (category tag and
description fill-in), for every completing schedule. -/
theorem fetch_books_for_category_eq_map (pages : Nat → List Book) (N : Nat)
    (order : List Nat) (descApi : String → Except String String) (cslug : String)
    (h1 : 1 ≤ N) (h2 : ∀ i, i < N - 1 → i ∈ order) :
    fetch_books_for_category pages N order descApi cslug
      = (((List.range' 1 N).map pages).flatten).map
          (fun b => { b with
                        category_slug := some cslug,
                        description := fetch_description descApi b.slug }) := by
  simp only [fetch_books_for_category]
  rw [paginatedFetch_eq_flatten pages N order h1 h2, zip_self_map_set_description,
    List.map_map]
  rfl

/-- C5: pagination completeness and page order.  For every paginated
resource fetch against an API reporting `total_page = N ≥ 1` — books per
category and stores per online/offline flag — and EVERY completion
schedule of the concurrent page-2..N requests that completes each of
them, the fetched record list is exactly the concatenation of page 1's
through page N's records in ascending page order (for books, with the
per-record tag/description enrichment applied in place, preserving that
order). -/
theorem C5_pagination_completeness (pages : Nat → List Book)
    (storesApi : Bool → Nat → List α) (is_online : Bool)
    (descApi : String → Except String String) (category_slug : String)
    (N : Nat) (order : List Nat) (h1 : 1 ≤ N)
    (h2 : ∀ i, i < N - 1 → i ∈ order) :
    fetch_books_for_category pages N order descApi category_slug
      = (((List.range' 1 N).map pages).flatten).map
          (fun b => { b with
                        category_slug := some category_slug,
                        description := fetch_description descApi b.slug }) ∧
    storesFetchAll storesApi is_online N order
      = ((List.range' 1 N).map (storesApi is_online)).flatten := by
  constructor
  · exact fetch_books_for_category_eq_map pages N order descApi category_slug h1 h2
  · exact paginatedFetch_eq_flatten (storesApi is_online) N order h1 h2

/-- Witness for C5: a three-page API whose fan-out completes out of
order (page 3's task before page 2's) still yields pages 1, 2, 3 in
order, for the books fetch and the stores fetch alike. -/
theorem C5_pagination_completeness_witness :
    (1 ≤ 3 ∧ ∀ i, i < 3 - 1 → i ∈ [1, 0]) ∧
    fetch_books_for_category (fun n => [{ slug := toString n }]) 3 [1, 0]
        (fun _ => Except.error "boom") "novel"
      = [{ slug := "1", category_slug := some "novel", description := none },
         { slug := "2", category_slug := some "novel", description := none },
         { slug := "3", category_slug := some "novel", description := none }] ∧
    storesFetchAll (fun _ n => [10 * n]) true 3 [1, 0] = [10, 20, 30] := by
  have h := C5_pagination_completeness (fun n => [{ slug := toString n }])
    (fun _ n => [10 * n]) true (fun _ => Except.error "boom") "novel" 3 [1, 0]
    (by omega) (by decide)
  exact ⟨⟨by omega, by decide⟩, h.1.trans (by rfl), h.2.trans (by rfl)⟩

/-- C7: description-fetch failures are isolated.  For every per-category
books fetch (any page oracle, any completing schedule), the batch yields
exactly one row per fetched record, and row `i` is record `i` with the
category tag added and its description set to the fetched value when the
description fetch succeeds and to null (`none`) when it raises — other
rows are unaffected by that failure. -/
theorem C7_description_failure_isolated (pages : Nat → List Book) (N : Nat)
    (order : List Nat) (descApi : String → Except String String) (cslug : String)
    (h1 : 1 ≤ N) (h2 : ∀ i, i < N - 1 → i ∈ order) :
    (fetch_books_for_category pages N order descApi cslug).length
      = (((List.range' 1 N).map pages).flatten).length ∧
    ∀ i : Nat,
      (fetch_books_for_category pages N order descApi cslug)[i]?
        = (((List.range' 1 N).map pages).flatten)[i]?.map
            (fun b => { b with
                          category_slug := some cslug,
                          description := match descApi b.slug with
                            | .ok d => some d
                            | .error _ => none }) := by
  rw [fetch_books_for_category_eq_map pages N order descApi cslug h1 h2]
  refine ⟨List.length_map _ _, fun i => ?_⟩
  rw [List.getElem?_map]
  rfl

/-- Witness for C7: five books on one page, the description fetch
failing for the third only; the batch still has five rows, four with the
fetched description and one (the third) with null. -/
theorem C7_description_failure_isolated_witness :
    (1 ≤ 1 ∧ ∀ i, i < 1 - 1 → i ∈ ([] : List Nat)) ∧
    (fetch_books_for_category
        (fun _ => [⟨"s1", "", none, none⟩, ⟨"s2", "", none, none⟩,
                   ⟨"s3", "", none, none⟩, ⟨"s4", "", none, none⟩,
                   ⟨"s5", "", none, none⟩])
        1 [] (fun s => if s = "s3" then .error "boom" else .ok ("d-" ++ s))
        "c").length = 5 ∧
    fetch_books_for_category
        (fun _ => [⟨"s1", "", none, none⟩, ⟨"s2", "", none, none⟩,
                   ⟨"s3", "", none, none⟩, ⟨"s4", "", none, none⟩,
                   ⟨"s5", "", none, none⟩])
        1 [] (fun s => if s = "s3" then .error "boom" else .ok ("d-" ++ s)) "c"
      = [⟨"s1", "", some "c", some "d-s1"⟩, ⟨"s2", "", some "c", some "d-s2"⟩,
         ⟨"s3", "", some "c", none⟩, ⟨"s4", "", some "c", some "d-s4"⟩,
         ⟨"s5", "", some "c", some "d-s5"⟩] := by
  have h := C7_description_failure_isolated
    (fun _ => [⟨"s1", "", none, none⟩, ⟨"s2", "", none, none⟩,
               ⟨"s3", "", none, none⟩, ⟨"s4", "", none, none⟩,
               ⟨"s5", "", none, none⟩])
    1 [] (fun s => if s = "s3" then .error "boom" else .ok ("d-" ++ s)) "c"
    (by omega) (fun i hi => absurd hi (by omega))
  exact ⟨⟨by omega, fun i hi => absurd hi (by omega)⟩, h.1.trans (by rfl), by rfl⟩

/-! ## Claim theorems: category tree flattener -/

mutual

theorem flatten_subcategories_length : ∀ (c : Category) (p : Option String) (d : Nat),
    (flatten_subcategories c p d).length = c.size
  | .node t s i subs, p, d => by
    rw [flatten_subcategories, Category.size]
    simp only [List.length_cons]
    rw [flattenChildren_length subs s (d + 1)]
    omega

theorem flattenChildren_length : ∀ (subs : List Category) (s : String) (d : Nat),
    (flattenChildren subs s d).length = sizeList subs
  | [], _, _ => rfl
  | c :: cs, s, d => by
    rw [flattenChildren, List.length_append, flatten_subcategories_length c (some s) d,
      flattenChildren_length cs s d, sizeList]

end

/-- C6: the flattener is depth-first pre-order with parent/depth links:
it emits exactly one record per node; the current node's record comes
first (before all children), carrying exactly the received `parent_slug`
and `depth`; the children's blocks follow in order, each flattened with
`parent_slug` set to this node's slug and `depth + 1`.  On the spec's
example tree (root A with children [B, C], B with child D) it yields
order [A, B, D, C], depths [0, 1, 2, 1] and parent slugs
[null, A, B, A]. -/
theorem C6_flattener_preorder (c : Category) (p : Option String) (d : Nat) :
    (flatten_subcategories c p d).length = c.size ∧
    flatten_subcategories c p d
      = { title := c.title, slug := c.slug, image := c.image,
          parent_slug := p, depth := d }
          :: flattenChildren c.subcategory c.slug (d + 1) ∧
    (∀ x xs sl dp, flattenChildren (x :: xs) sl dp
      = flatten_subcategories x (some sl) dp ++ flattenChildren xs sl dp) ∧
    flatten_subcategories
        (.node "A" "a" "imgA"
          [.node "B" "b" "imgB" [.node "D" "d" "imgD" []],
           .node "C" "c" "imgC" []]) none 0
      = [⟨"A", "a", "imgA", none, 0⟩, ⟨"B", "b", "imgB", some "a", 1⟩,
         ⟨"D", "d", "imgD", some "b", 2⟩, ⟨"C", "c", "imgC", some "a", 1⟩] := by
  refine ⟨flatten_subcategories_length c p d, ?_, fun x xs sl dp => ?_, ?_⟩
  · cases c with
    | node t s i subs => rw [flatten_subcategories]; rfl
  · rw [flattenChildren]
  · rfl

/-! ## Claim theorems: schema typing (`booksRetype`) -/

theorem lookup_mem {β : Type} (l : List (String × β)) (k : String) (v : β)
    (h : l.lookup k = some v) : (k, v) ∈ l := by
  induction l with
  | nil => simp [List.lookup] at h
  | cons p rest ih =>
    rcases p with ⟨a, b⟩
    cases hk : k == a with
    | true =>
      have hkv : k = a := by simpa using hk
      have hbv : b = v := by
        have := h
        simp [List.lookup, hk] at this
        exact this
      subst hkv; subst hbv
      exact List.mem_cons_self _ _
    | false =>
      have h' : List.lookup k rest = some v := by
        have := h
        simp [List.lookup, hk] at this
        exact this
      exact List.mem_cons_of_mem _ (ih h')

theorem lookup_eq_some_of_nodup {β : Type} (l : List (String × β)) (k : String) (v : β)
    (hnd : (l.map Prod.fst).Nodup) (hm : (k, v) ∈ l) : l.lookup k = some v := by
  induction l with
  | nil => simp at hm
  | cons p rest ih =>
    rcases p with ⟨a, b⟩
    rcases List.mem_cons.mp hm with heq | hmem
    · cases heq
      simp [List.lookup]
    · have hnd' : a ∉ rest.map Prod.fst ∧ (rest.map Prod.fst).Nodup := by
        rw [List.map_cons] at hnd
        exact List.nodup_cons.mp hnd
      have hka : k ≠ a := by
        intro hk
        subst hk
        exact hnd'.1 (List.mem_map.mpr ⟨(k, v), hmem, rfl⟩)
      have hba : (k == a) = false := by
        simpa using hka
      simp [List.lookup, hba]
      exact ih hnd'.2 hmem

theorem castColumn_name_dtype (dt : Dtype) (c c' : Column)
    (h : castColumn dt c = some c') : c'.name = c.name ∧ c'.dtype = dt := by
  unfold castColumn at h
  cases hc : castCells dt c.values with
  | none => rw [hc] at h; simp at h
  | some vs =>
    rw [hc] at h
    simp at h
    rw [← h]
    exact ⟨rfl, rfl⟩

theorem castColumns_isSome (m : List (String × Dtype)) (df : DataFrame)
    (h : ∀ c ∈ df, ∀ dt, m.lookup c.name = some dt → (castColumn dt c).isSome) :
    (castColumns m df).isSome := by
  induction df with
  | nil => rfl
  | cons c cs ih =>
    have h1 : (match m.lookup c.name with
        | some dt => castColumn dt c
        | none => some c).isSome := by
      cases hl : m.lookup c.name with
      | some dt => exact h c (List.mem_cons_self _ _) dt hl
      | none => rfl
    have h2 := ih (fun c hc dt hl => h c (List.mem_cons_of_mem _ hc) dt hl)
    rcases Option.isSome_iff_exists.mp h1 with ⟨x, hx⟩
    rcases Option.isSome_iff_exists.mp h2 with ⟨xs, hxs⟩
    rw [castColumns, hx, hxs]
    rfl

/-- Dissect one successful `castColumns` step on a cons cell. -/
theorem castColumns_cons_elim (m : List (String × Dtype)) (c : Column)
    (cs : DataFrame) (df' : DataFrame)
    (h : castColumns m (c :: cs) = some df') :
    ∃ x xs, df' = x :: xs ∧ castColumns m cs = some xs ∧ x.name = c.name ∧
      (∀ dt, m.lookup c.name = some dt → x.dtype = dt) ∧
      (m.lookup c.name = none → x = c) := by
  rw [castColumns] at h
  cases hA : (match m.lookup c.name with
      | some dt => castColumn dt c
      | none => some c) with
  | none => rw [hA] at h; simp at h
  | some x =>
    cases hB : castColumns m cs with
    | none => rw [hA, hB] at h; simp at h
    | some xs =>
      rw [hA, hB] at h
      simp at h
      refine ⟨x, xs, h.symm, rfl, ?_, ?_, ?_⟩
      · cases hl : m.lookup c.name with
        | some dt =>
          rw [hl] at hA
          exact (castColumn_name_dtype dt c x hA).1
        | none =>
          rw [hl] at hA
          simp at hA
          rw [hA]
      · intro dt hl
        rw [hl] at hA
        exact (castColumn_name_dtype dt c x hA).2
      · intro hl
        rw [hl] at hA
        simp at hA
        rw [hA]

theorem castColumns_hasColumn (m : List (String × Dtype)) (df df' : DataFrame)
    (h : castColumns m df = some df') (n : String) :
    hasColumn df' n = hasColumn df n := by
  induction df generalizing df' with
  | nil =>
    rw [castColumns] at h
    simp at h
    rw [← h]
  | cons c cs ih =>
    rcases castColumns_cons_elim m c cs df' h with ⟨x, xs, rfl, hcs, hname, _, _⟩
    simp only [hasColumn, List.any_cons] at *
    rw [hname, ih xs hcs]

theorem castColumns_columnDtype (m : List (String × Dtype)) (df df' : DataFrame)
    (h : castColumns m df = some df') (n : String) (dt : Dtype)
    (hl : m.lookup n = some dt) (hc : hasColumn df n = true) :
    columnDtype df' n = some dt := by
  induction df generalizing df' with
  | nil => simp [hasColumn] at hc
  | cons c cs ih =>
    rcases castColumns_cons_elim m c cs df' h with ⟨x, xs, rfl, hcs, hname, hdt, _⟩
    by_cases hcn : c.name = n
    · have hx : (x.name == n) = true := by
        rw [hname, hcn]
        simp
      rw [columnDtype, List.find?_cons_of_pos (p := fun k : Column => k.name == n) _ hx]
      simp
      exact hdt dt (by rw [hcn]; exact hl)
    · have hx : ¬((x.name == n) = true) := by
        rw [hname]
        simpa using hcn
      rw [columnDtype, List.find?_cons_of_neg (p := fun k : Column => k.name == n) _ hx]
      have hc' : hasColumn cs n = true := by
        simp only [hasColumn, List.any_cons] at hc
        rcases Bool.or_eq_true_iff.mp hc with h1 | h1
        · exact absurd (by simpa using h1) hcn
        · exact h1
      exact ih xs hcs hc'

theorem booksRetype_isSome (df : DataFrame)
    (h : ∀ c ∈ renameColumn df "product_meta_id" "id", ∀ p ∈ booksDtypeMap,
        p.1 = c.name → (castColumn p.2 c).isSome) :
    (booksRetype df).isSome := by
  simp only [booksRetype]
  split
  · rfl
  · rw [astype, if_pos]
    · apply castColumns_isSome
      intro c hc dt hl
      have hmem := lookup_mem _ _ _ hl
      exact h c hc (c.name, dt) (List.mem_filter.mp hmem).1 rfl
    · refine List.all_eq_true.mpr fun x hx => ?_
      simp only [valid_dtypes] at hx
      exact List.of_mem_filter
        (p := fun q : String × Dtype =>
          hasColumn (renameColumn df "product_meta_id" "id") q.1) hx

theorem booksRetype_hasColumn (df df' : DataFrame) (h : booksRetype df = some df')
    (n : String) :
    hasColumn df' n = hasColumn (renameColumn df "product_meta_id" "id") n := by
  simp only [booksRetype] at h
  split at h
  · cases h
    rfl
  · rw [astype] at h
    split at h
    · exact castColumns_hasColumn _ _ _ h n
    · cases h

theorem booksRetype_columnDtype (df df' : DataFrame) (h : booksRetype df = some df')
    (n : String) (dt : Dtype) (hmem : (n, dt) ∈ booksDtypeMap)
    (hp : hasColumn (renameColumn df "product_meta_id" "id") n = true) :
    columnDtype df' n = some dt := by
  simp only [booksRetype] at h
  split at h
  · rename_i hempty
    exfalso
    have hv : (n, dt) ∈ valid_dtypes booksDtypeMap (renameColumn df "product_meta_id" "id") :=
      List.mem_filter.mpr ⟨hmem, hp⟩
    rw [List.isEmpty_iff] at hempty
    rw [hempty] at hv
    simp at hv
  · rw [astype] at h
    split at h
    · have hnd : ((valid_dtypes booksDtypeMap
          (renameColumn df "product_meta_id" "id")).map Prod.fst).Nodup := by
        refine List.Nodup.sublist (List.Sublist.map Prod.fst (List.filter_sublist _)) ?_
        decide
      have hlook := lookup_eq_some_of_nodup _ n dt hnd (List.mem_filter.mpr ⟨hmem, hp⟩)
      exact castColumns_columnDtype _ _ _ h n dt hlook hp
    · cases h

/-- C8: books schema typing.  Whenever every present canonical column's
cells convert (the raw payload may encode them as any convertible
primitive type — numeric strings or booleans for ints, ints for
booleans, …), the rename/astype post-processing of the books origin
fetch succeeds, and in the returned table: `final_price` and `discount`
(when present) have dtype int64 and `is_oos` (when present) has dtype
bool; the table has exactly the renamed raw table's columns — canonical
columns absent from the raw payload are silently skipped (they cause no
error and do not appear), thanks to the `valid_dtypes` presence
filter. -/
theorem C8_books_schema_typing (df : DataFrame)
    (h : ∀ c ∈ renameColumn df "product_meta_id" "id", ∀ p ∈ booksDtypeMap,
        p.1 = c.name → (castColumn p.2 c).isSome) :
    ∃ df', booksRetype df = some df' ∧
      (∀ n, hasColumn df' n = hasColumn (renameColumn df "product_meta_id" "id") n) ∧
      (hasColumn (renameColumn df "product_meta_id" "id") "final_price" = true →
        columnDtype df' "final_price" = some .dInt64) ∧
      (hasColumn (renameColumn df "product_meta_id" "id") "discount" = true →
        columnDtype df' "discount" = some .dInt64) ∧
      (hasColumn (renameColumn df "product_meta_id" "id") "is_oos" = true →
        columnDtype df' "is_oos" = some .dBool) := by
  rcases Option.isSome_iff_exists.mp (booksRetype_isSome df h) with ⟨df', hdf'⟩
  refine ⟨df', hdf', fun n => booksRetype_hasColumn df df' hdf' n,
    fun hp => booksRetype_columnDtype df df' hdf' _ _ (by decide) hp,
    fun hp => booksRetype_columnDtype df df' hdf' _ _ (by decide) hp,
    fun hp => booksRetype_columnDtype df df' hdf' _ _ (by decide) hp⟩

/-- Witness for C8: a raw payload with `final_price` and `discount` as
booleans, `is_oos` as an integer, `product_meta_id` to be renamed, an
off-schema `extra` column, and most canonical columns absent. -/
theorem C8_books_schema_typing_witness :
    (∀ c ∈ renameColumn
        [⟨"final_price", .dBool, [.vBool true]⟩,
         ⟨"discount", .dBool, [.vBool false]⟩,
         ⟨"is_oos", .dInt64, [.vInt 0]⟩,
         ⟨"product_meta_id", .dInt64, [.vInt 7]⟩,
         ⟨"extra", .dString, [.vNull]⟩] "product_meta_id" "id",
      ∀ p ∈ booksDtypeMap, p.1 = c.name → (castColumn p.2 c).isSome) ∧
    ∃ df', booksRetype
        [⟨"final_price", .dBool, [.vBool true]⟩,
         ⟨"discount", .dBool, [.vBool false]⟩,
         ⟨"is_oos", .dInt64, [.vInt 0]⟩,
         ⟨"product_meta_id", .dInt64, [.vInt 7]⟩,
         ⟨"extra", .dString, [.vNull]⟩] = some df' ∧
      (∀ n, hasColumn df' n = hasColumn (renameColumn
        [⟨"final_price", .dBool, [.vBool true]⟩,
         ⟨"discount", .dBool, [.vBool false]⟩,
         ⟨"is_oos", .dInt64, [.vInt 0]⟩,
         ⟨"product_meta_id", .dInt64, [.vInt 7]⟩,
         ⟨"extra", .dString, [.vNull]⟩] "product_meta_id" "id") n) ∧
      (hasColumn (renameColumn
        [⟨"final_price", .dBool, [.vBool true]⟩,
         ⟨"discount", .dBool, [.vBool false]⟩,
         ⟨"is_oos", .dInt64, [.vInt 0]⟩,
         ⟨"product_meta_id", .dInt64, [.vInt 7]⟩,
         ⟨"extra", .dString, [.vNull]⟩] "product_meta_id" "id") "final_price" = true →
        columnDtype df' "final_price" = some .dInt64) ∧
      (hasColumn (renameColumn
        [⟨"final_price", .dBool, [.vBool true]⟩,
         ⟨"discount", .dBool, [.vBool false]⟩,
         ⟨"is_oos", .dInt64, [.vInt 0]⟩,
         ⟨"product_meta_id", .dInt64, [.vInt 7]⟩,
         ⟨"extra", .dString, [.vNull]⟩] "product_meta_id" "id") "discount" = true →
        columnDtype df' "discount" = some .dInt64) ∧
      (hasColumn (renameColumn
        [⟨"final_price", .dBool, [.vBool true]⟩,
         ⟨"discount", .dBool, [.vBool false]⟩,
         ⟨"is_oos", .dInt64, [.vInt 0]⟩,
         ⟨"product_meta_id", .dInt64, [.vInt 7]⟩,
         ⟨"extra", .dString, [.vNull]⟩] "product_meta_id" "id") "is_oos" = true →
        columnDtype df' "is_oos" = some .dBool) :=
  ⟨by decide, C8_books_schema_typing
    [⟨"final_price", .dBool, [.vBool true]⟩,
     ⟨"discount", .dBool, [.vBool false]⟩,
     ⟨"is_oos", .dInt64, [.vInt 0]⟩,
     ⟨"product_meta_id", .dInt64, [.vInt 7]⟩,
     ⟨"extra", .dString, [.vNull]⟩] (by decide)⟩

end Gramedia
